import Mathlib

/-!
Shallow embedding of the notification-service lifecycle core:
the Mongoose `Notification` model (schema defaults, instance methods,
static query/command methods) and the dispatch router
(`services/notificationService.js`).

Conventions:
* timestamps (`Date` values) are modelled as `Nat` milliseconds;
* the document collection is a `List Notification` in insertion order;
* a Mongo `find(query).sort(keys)` is modelled as filtering the list by the
  query predicate and insertion-sorting by the comparator the sort keys induce
  (Mongo leaves the relative order of fully tied documents unspecified;
  insertion sort is one refinement of that);
* fields never touched by the verified operations (`metadata`,
  `relatedEntities`, `actionUrl`, `actionLabel`, `snsMessageId`,
  `sqsMessageId`, `createdBy`) are omitted from the record.
-/

namespace NotificationService

/-- Schema enum for `priority`: `['low', 'normal', 'high', 'urgent']`. -/
inductive Priority
| low
| normal
| high
| urgent
deriving DecidableEq, Repr

/-- Schema enum for `status`: `['pending', 'sent', 'delivered', 'read', 'failed']`. -/
inductive Status
| pending
| sent
| delivered
| read
| failed
deriving DecidableEq, Repr

/-- Schema enum for `recipientType`: `['staff', 'patient', 'admin', 'system']`. -/
inductive RecipientType
| staff
| patient
| admin
| system
deriving DecidableEq, Repr

/-- The string stored in the document for each `priority` value. -/
def Priority.str : Priority → String
| Priority.low => "low"
| Priority.normal => "normal"
| Priority.high => "high"
| Priority.urgent => "urgent"

/-- Position of each priority's stored string in ascending lexicographic
(BSON string) order, which is what a Mongo sort on the `priority` field
compares: "high" < "low" < "normal" < "urgent". -/
def Priority.mongoRank : Priority → Nat
| Priority.high => 0
| Priority.low => 1
| Priority.normal => 2
| Priority.urgent => 3

/-- Sub-record for each of the `push` / `email` / `sms` channels. -/
structure ChannelRecord where
  sent : Bool := false
  sentAt : Option Nat := none
  messageId : Option String := none
deriving DecidableEq, Repr

/-- Sub-record for the `inApp` channel. -/
structure InAppRecord where
  displayed : Bool := false
  displayedAt : Option Nat := none
deriving DecidableEq, Repr

/-- The `channels` sub-document. -/
structure Channels where
  push : ChannelRecord := {}
  email : ChannelRecord := {}
  sms : ChannelRecord := {}
  inApp : InAppRecord := {}
deriving DecidableEq, Repr

/-- The persisted `Notification` document (fields relevant to the verified
operations; see the module comment for the omitted ones). -/
structure Notification where
  type : String
  title : String
  message : String
  priority : Priority
  recipientId : String
  recipientType : RecipientType
  status : Status
  read : Bool
  readAt : Option Nat
  channels : Channels
  actionRequired : Bool
  actionCompleted : Bool
  actionCompletedAt : Option Nat
  expiresAt : Option Nat
  createdAt : Nat
  updatedAt : Nat
deriving DecidableEq, Repr

/-- Fields a caller may supply to `Notification.create`; every omitted field
takes the schema default (`priority: 'normal'`, `recipientType: 'staff'`,
`status: 'pending'`, `read: false`, `readAt: null`, empty channel
sub-records, `actionRequired/actionCompleted: false`, `expiresAt: null`).
Mongoose accepts any schema field here, including `read` and `readAt`. -/
structure CreateFields where
  type : String
  title : String
  message : String
  recipientId : String
  priority : Priority := Priority.normal
  recipientType : RecipientType := RecipientType.staff
  status : Status := Status.pending
  read : Bool := false
  readAt : Option Nat := none
  channels : Channels := {}
  actionRequired : Bool := false
  actionCompleted : Bool := false
  actionCompletedAt : Option Nat := none
  expiresAt : Option Nat := none
deriving DecidableEq, Repr

/-- `Notification.create`: builds a document from the supplied fields and the
schema defaults; `createdAt` and `updatedAt` are set to the current time. -/
def createNotif (f : CreateFields) (now : Nat) : Notification :=
  { type := f.type
    title := f.title
    message := f.message
    priority := f.priority
    recipientId := f.recipientId
    recipientType := f.recipientType
    status := f.status
    read := f.read
    readAt := f.readAt
    channels := f.channels
    actionRequired := f.actionRequired
    actionCompleted := f.actionCompleted
    actionCompletedAt := f.actionCompletedAt
    expiresAt := f.expiresAt
    createdAt := now
    updatedAt := now }

/-- `notificationSchema.methods.markAsRead`: sets `read`, `readAt`, `status`
and saves (the pre-save hook refreshes `updatedAt`). -/
def markAsRead (n : Notification) (now : Nat) : Notification :=
  { n with read := true, readAt := some now, status := Status.read, updatedAt := now }

/-- `notificationSchema.methods.completeAction`: sets `actionCompleted`,
`actionCompletedAt` and saves (the pre-save hook refreshes `updatedAt`). -/
def completeAction (n : Notification) (now : Nat) : Notification :=
  { n with actionCompleted := true, actionCompletedAt := some now, updatedAt := now }

/-- The `if (this.channels[channel]) { ... }` branch of `markAsDelivered`:
for `push` / `email` / `sms` the sub-record's `sent`, `sentAt`, `messageId`
are set. For `inApp` the guard is truthy as well, but the assigned paths
(`sent`, `sentAt`, `messageId`) are not in the `inApp` sub-schema, so strict
mode drops them and the persisted channels are unchanged. For any other
string the guard is falsy and nothing is touched. -/
def deliverChannels (cs : Channels) (channel : String) (now : Nat) (messageId : String) :
    Channels :=
  if channel == "push" then
    { cs with push := { sent := true, sentAt := some now, messageId := some messageId } }
  else if channel == "email" then
    { cs with email := { sent := true, sentAt := some now, messageId := some messageId } }
  else if channel == "sms" then
    { cs with sms := { sent := true, sentAt := some now, messageId := some messageId } }
  else
    cs

/-- `notificationSchema.methods.markAsDelivered(channel, messageId)`:
updates the channel sub-record when the key is recognized, then — outside
that guard — promotes `status` from `pending` to `sent`, and saves (the
pre-save hook refreshes `updatedAt`). -/
def markAsDelivered (n : Notification) (channel : String) (messageId : String) (now : Nat) :
    Notification :=
  let n1 := { n with channels := deliverChannels n.channels channel now messageId }
  let n2 := if n1.status = Status.pending then { n1 with status := Status.sent } else n1
  { n2 with updatedAt := now }

/-- The query document of `findUnread` (and, duplicated verbatim in the
source, of `getUnreadCount`): `recipientId`, `read: false`,
`$or: [{expiresAt: null}, {expiresAt: {$gt: now}}]`. -/
def unreadPred (now : Nat) (recipientId : String) (n : Notification) : Bool :=
  n.recipientId == recipientId && n.read == false &&
    (match n.expiresAt with
     | none => true
     | some e => decide (now < e))

/-- The comparator realised by `.sort({ priority: -1, createdAt: -1 })`:
the stored priority strings in descending lexicographic order (see
`Priority.mongoRank_lt_iff`), then `createdAt` descending. -/
def unreadBefore (a b : Notification) : Prop :=
  b.priority.mongoRank < a.priority.mongoRank ∨
    (a.priority.mongoRank = b.priority.mongoRank ∧ b.createdAt ≤ a.createdAt)

instance : DecidableRel unreadBefore := fun a b =>
  decidable_of_iff
    (b.priority.mongoRank < a.priority.mongoRank ∨
      (a.priority.mongoRank = b.priority.mongoRank ∧ b.createdAt ≤ a.createdAt))
    Iff.rfl

instance : IsTotal Notification unreadBefore := by
  constructor
  intro a b
  unfold unreadBefore
  omega

instance : IsTrans Notification unreadBefore := by
  constructor
  intro a b c hab hbc
  unfold unreadBefore at *
  omega

/-- `notificationSchema.statics.findUnread(recipientId)`. -/
def findUnread (store : List Notification) (recipientId : String) (now : Nat) :
    List Notification :=
  (store.filter (unreadPred now recipientId)).insertionSort unreadBefore

/-- `notificationSchema.statics.getUnreadCount(recipientId)`: a
`countDocuments` over the same query document, duplicated in the source. -/
def getUnreadCount (store : List Notification) (recipientId : String) (now : Nat) : Nat :=
  (store.filter fun n =>
    n.recipientId == recipientId && n.read == false &&
      (match n.expiresAt with
       | none => true
       | some e => decide (now < e))).length

/-- Per-document effect of the `$set` in `markAllAsRead` (with
`timestamps: true`, `updateMany` also refreshes `updatedAt`). -/
def markAllAsReadDoc (n : Notification) (now : Nat) : Notification :=
  { n with read := true, readAt := some now, status := Status.read, updatedAt := now }

/-- `notificationSchema.statics.markAllAsRead(recipientId)`: an
`updateMany({recipientId, read: false}, {$set: ...})`; the second component
is `modifiedCount` (every matched document has `read: false` flipped to
`true`, so every matched document counts as modified). -/
def markAllAsRead (store : List Notification) (recipientId : String) (now : Nat) :
    List Notification × Nat :=
  (store.map fun n =>
      if n.recipientId == recipientId && n.read == false then markAllAsReadDoc n now else n,
   (store.filter fun n => n.recipientId == recipientId && n.read == false).length)

/-- `notificationSchema.statics.deleteOld(daysOld)`: a
`deleteMany({createdAt: {$lt: cutoff}, read: true})`, where `cutoff` is the
current date shifted back `daysOld` calendar days via `setDate`; the cutoff
is taken as a parameter here. The second component is `deletedCount`. -/
def deleteOld (store : List Notification) (cutoff : Nat) : List Notification × Nat :=
  (store.filter fun n => !(decide (n.createdAt < cutoff) && n.read),
   (store.filter fun n => decide (n.createdAt < cutoff) && n.read).length)

/-- The `options` object of `findByRecipient`. In the source, `type` and
`priority` are added to the query when truthy and `read` when not
`undefined`; `none` models the absent / falsy case. -/
structure FindOptions where
  type : Option String := none
  read : Option Bool := none
  priority : Option Priority := none
  limit : Option Nat := none
deriving DecidableEq, Repr

/-- The query document `findByRecipient` builds from `recipientId` and the
supplied options (each present option adds one equality clause). -/
def matchesOptions (recipientId : String) (opts : FindOptions) (n : Notification) : Bool :=
  n.recipientId == recipientId &&
    (match opts.type with
     | none => true
     | some t => n.type == t) &&
    (match opts.read with
     | none => true
     | some b => n.read == b) &&
    (match opts.priority with
     | none => true
     | some p => n.priority == p)

/-- The comparator realised by `.sort({ createdAt: -1 })`. -/
def createdBefore (a b : Notification) : Prop := b.createdAt ≤ a.createdAt

instance : DecidableRel createdBefore := fun a b =>
  decidable_of_iff (b.createdAt ≤ a.createdAt) Iff.rfl

instance : IsTotal Notification createdBefore := by
  constructor
  intro a b
  unfold createdBefore
  omega

instance : IsTrans Notification createdBefore := by
  constructor
  intro a b c hab hbc
  unfold createdBefore at *
  omega

/-- `options.limit || 50`: in JS, `0` (and an omitted limit) is falsy and
falls back to `50`. -/
def effectiveLimit (opts : FindOptions) : Nat :=
  match opts.limit with
  | none => 50
  | some l => if l = 0 then 50 else l

/-- `notificationSchema.statics.findByRecipient(recipientId, options)`:
filter by the query document, sort by `createdAt` descending, truncate to
`options.limit || 50` documents. -/
def findByRecipient (store : List Notification) (recipientId : String) (opts : FindOptions) :
    List Notification :=
  (((store.filter (matchesOptions recipientId opts)).insertionSort createdBefore).take
    (effectiveLimit opts))

/-- One element `$push`ed onto `byType` by the `getStats` aggregation:
`{ type: '$type', count: 1 }` — one entry per document, always `count: 1`. -/
structure TypeEntry where
  type : String
  count : Nat
deriving DecidableEq, Repr

/-- One element `$push`ed onto `byPriority` by the `getStats` aggregation:
`{ priority: '$priority', count: 1 }`. -/
structure PriorityEntry where
  priority : Priority
  count : Nat
deriving DecidableEq, Repr

/-- The single `$group` row produced by the `getStats` aggregation. -/
structure StatsRow where
  total : Nat
  unread : Nat
  byType : List TypeEntry
  byPriority : List PriorityEntry
deriving DecidableEq, Repr

/-- `notificationSchema.statics.getStats(recipientId)`: `$match` on
`recipientId`, then one `$group` row with `total` (`$sum: 1`), `unread`
(`$sum` of 1 where `read` equals `false`), and `byType` / `byPriority`
`$push`ing one `{value, count: 1}` entry per matched document. When no
document matches, `$group` emits no row and the aggregation returns the
empty array, modelled as `none`. -/
def getStats (store : List Notification) (recipientId : String) : Option StatsRow :=
  if (store.filter fun n => n.recipientId == recipientId).isEmpty then none
  else
    some
      { total := (store.filter fun n => n.recipientId == recipientId).length
        unread := ((store.filter fun n => n.recipientId == recipientId).filter
            fun n => n.read == false).length
        byType := (store.filter fun n => n.recipientId == recipientId).map
            fun n => { type := n.type, count := 1 }
        byPriority := (store.filter fun n => n.recipientId == recipientId).map
            fun n => { priority := n.priority, count := 1 } }

/-!
Dispatch router (`services/notificationService.js`). The SNS topic and SQS
queue are external collaborators; the embedding records what each one
receives. The collaborators are taken as succeeding (as in the repository's
tests, which mock both with resolved promises), and `NODE_ENV` is not
`development`, so the AWS path is not skipped.
-/

/-- The four SNS topic categories of the `switch` on `entityType`. -/
inductive TopicType
| TASK
| ALARM
| VISIT
| MEDICINE
deriving DecidableEq, Repr

/-- The destructured creation request (`priority` defaults to `'normal'`,
`recipients` to `[]`; `metadata` is an opaque bag and omitted). -/
structure NotificationData where
  type : String
  entityType : String
  entityId : String
  title : String
  message : String
  priority : Priority := Priority.normal
  recipients : List String := []
deriving DecidableEq, Repr

/-- The dispatch payload built by `createNotification` before routing:
a fresh `id`, the request fields, `timestamp` now, initial `status: 'sent'`. -/
structure DispatchPayload where
  id : String
  type : String
  entityType : String
  entityId : String
  title : String
  message : String
  priority : Priority
  recipients : List String
  timestamp : Nat
  status : Status
deriving DecidableEq, Repr

/-- What the two downstream collaborators received: the arguments of each
`publishToSNS(topicType, notification)` and `sendToSQS(notification)` call. -/
structure DispatchEffects where
  snsPublishes : List (TopicType × DispatchPayload) := []
  sqsSends : List DispatchPayload := []
deriving DecidableEq, Repr

/-- The `switch (entityType)` choosing `topicType`; `audio` and `photo` are
routed to the `TASK` topic, anything else hits the `default: throw` arm,
modelled by `none`. -/
def routeTopic (entityType : String) : Option TopicType :=
  if entityType == "task" then some TopicType.TASK
  else if entityType == "alarm" then some TopicType.ALARM
  else if entityType == "visit" then some TopicType.VISIT
  else if entityType == "medicine" then some TopicType.MEDICINE
  else if entityType == "audio" then some TopicType.TASK
  else if entityType == "photo" then some TopicType.TASK
  else none

/-- The notification object literal built at the top of `createNotification`. -/
def buildPayload (d : NotificationData) (id : String) (now : Nat) : DispatchPayload :=
  { id := id
    type := d.type
    entityType := d.entityType
    entityId := d.entityId
    title := d.title
    message := d.message
    priority := d.priority
    recipients := d.recipients
    timestamp := now
    status := Status.sent }

/-- The aggregated success value `{success: true, notification, sns, sqs}`
(the collaborator message ids are opaque and omitted). -/
structure DispatchResult where
  notification : DispatchPayload
  topic : TopicType
deriving DecidableEq, Repr

/-- `createNotification(notificationData)`: builds the payload, switches on
`entityType` — the `default` arm throws `Unknown entity type: ...` before
any collaborator call — then publishes to SNS and sends to SQS in sequence.
The second component records what the collaborators received. -/
def createNotification (d : NotificationData) (id : String) (now : Nat) :
    Except String DispatchResult × DispatchEffects :=
  let payload := buildPayload d id now
  match routeTopic d.entityType with
  | none => (Except.error ("Unknown entity type: " ++ d.entityType), {})
  | some topic =>
      (Except.ok { notification := payload, topic := topic },
       { snsPublishes := [(topic, payload)], sqsSends := [payload] })

/-!
Reachable notification states: every notification produced by the public
operations, starting from `Notification.create` with any accepted fields and
closed under `markAsRead`, `markAsDelivered`, `completeAction` and the
per-document effect of `markAllAsRead` (which targets exactly the documents
with `read: false`).
-/

/-- A notification state reachable through the public operations. -/
inductive Reachable : Notification → Prop
| create (f : CreateFields) (t : Nat) : Reachable (createNotif f t)
| viaMarkAsRead (n : Notification) (t : Nat) : Reachable n → Reachable (markAsRead n t)
| viaMarkAsDelivered (n : Notification) (c m : String) (t : Nat) :
    Reachable n → Reachable (markAsDelivered n c m t)
| viaCompleteAction (n : Notification) (t : Nat) : Reachable n → Reachable (completeAction n t)
| viaMarkAllAsRead (n : Notification) (t : Nat) :
    Reachable n → n.read = false → Reachable (markAllAsReadDoc n t)

/-- Reachable states when creation leaves `read` and `readAt` at their
schema defaults (`false` / `null`). -/
inductive ReachableDefault : Notification → Prop
| create (f : CreateFields) (t : Nat) :
    f.read = false → f.readAt = none → ReachableDefault (createNotif f t)
| viaMarkAsRead (n : Notification) (t : Nat) :
    ReachableDefault n → ReachableDefault (markAsRead n t)
| viaMarkAsDelivered (n : Notification) (c m : String) (t : Nat) :
    ReachableDefault n → ReachableDefault (markAsDelivered n c m t)
| viaCompleteAction (n : Notification) (t : Nat) :
    ReachableDefault n → ReachableDefault (completeAction n t)
| viaMarkAllAsRead (n : Notification) (t : Nat) :
    ReachableDefault n → n.read = false → ReachableDefault (markAllAsReadDoc n t)

/-!
Concrete fixtures for the closed evaluations below (field values follow the
repository's test data).
-/

/-- An unread high-priority notification of `doctor1`, created at time 10. -/
def exHigh : Notification :=
  createNotif
    { type := "file_upload", title := "Photo 1", message := "Photo uploaded",
      recipientId := "doctor1", priority := Priority.high } 10

/-- An unread normal-priority notification of `doctor1`, created at time 5. -/
def exNormal : Notification :=
  createNotif
    { type := "task_assigned", title := "Task 1", message := "Task assigned",
      recipientId := "doctor1", priority := Priority.normal } 5

/-- The ordering the claim describes, stated from its words: priority
descending with urgent > high > normal > low, then creation time
descending. To be compared with the order the code realises
(`unreadBefore`). -/
def claimedPriorityRank : Priority → Nat
| Priority.low => 0
| Priority.normal => 1
| Priority.high => 2
| Priority.urgent => 3

/-- "a comes no later than b" under the claim's ordering. -/
def claimedUnreadBefore (a b : Notification) : Prop :=
  claimedPriorityRank b.priority < claimedPriorityRank a.priority ∨
    (claimedPriorityRank a.priority = claimedPriorityRank b.priority ∧
      b.createdAt ≤ a.createdAt)

instance : DecidableRel claimedUnreadBefore := fun a b =>
  decidable_of_iff
    (claimedPriorityRank b.priority < claimedPriorityRank a.priority ∨
      (claimedPriorityRank a.priority = claimedPriorityRank b.priority ∧
        b.createdAt ≤ a.createdAt))
    Iff.rfl

/-- The fields the repository's own test
(`Notification.create({..., read: true})`) supplies: `read` is set without
`readAt`, which then keeps its schema default `null`. -/
def exCreateReadTrue : CreateFields :=
  { type := "file_upload", title := "Photo 2", message := "Photo",
    recipientId := "doctor1", read := true }

/-- Default creation fields, as in the repository's model tests. -/
def exCreateDefault : CreateFields :=
  { type := "task_assigned", title := "Task Assigned", message := "You have a new task",
    recipientId := "staff456" }

/-- A read notification of age beyond the cutoff, created at time 0. -/
def exOldRead : Notification :=
  createNotif
    { type := "visit_status", title := "Old visit", message := "done",
      recipientId := "doctor1", read := true } 0

/-- An unread notification of the same age. -/
def exOldUnread : Notification :=
  createNotif
    { type := "alarm", title := "Old alarm", message := "ring",
      recipientId := "doctor1" } 0

/-- A read notification newer than the cutoff. -/
def exNewRead : Notification :=
  createNotif
    { type := "task_due", title := "Recent task", message := "due",
      recipientId := "doctor1", read := true } 100

/-- A creation request whose `entityType` maps to no topic. -/
def exDispatchDoc : NotificationData :=
  { type := "file_upload", entityType := "document", entityId := "doc1",
    title := "File Uploaded", message := "A new file has been uploaded" }

/-- Two unread notifications of `doctor1` sharing one `type` value. -/
def exPhotoA : Notification :=
  createNotif
    { type := "file_upload", title := "Photo 1", message := "Photo",
      recipientId := "doctor1", priority := Priority.high } 1

/-- Second notification with the same `type` as `exPhotoA`. -/
def exPhotoB : Notification :=
  createNotif
    { type := "file_upload", title := "Photo 2", message := "Photo",
      recipientId := "doctor1" } 2

/-- The `$group` row the aggregation produces for the two-photo store. -/
def exStatsRow : StatsRow :=
  { total := 2
    unread := 2
    byType := [{ type := "file_upload", count := 1 }, { type := "file_upload", count := 1 }]
    byPriority := [{ priority := Priority.high, count := 1 },
      { priority := Priority.normal, count := 1 }] }

/-- A matching notification whose `expiresAt` lies in the past. -/
def exExpired : Notification :=
  createNotif
    { type := "system_alert", title := "Expired alert", message := "old",
      recipientId := "nurse1", expiresAt := some 5 } 0

/-- A fresh `nurse1` notification created at time `t`. -/
def exFreshAt (t : Nat) : Notification :=
  createNotif
    { type := "system_alert", title := "Alert", message := "new",
      recipientId := "nurse1" } t

/-- Fifty fresh notifications (creation times 50 down to 1) followed by the
expired one (creation time 0): 51 matching documents. -/
def exBigStore : List Notification :=
  ((List.range 50).map fun i => exFreshAt (50 - i)) ++ [exExpired]

/-- `mongoRank` is exactly the lexicographic (code-point) order of the
stored strings' character lists. -/
theorem Priority.mongoRank_lt_iff (p q : Priority) :
    p.mongoRank < q.mongoRank ↔ p.str.data < q.str.data := by
  cases p <;> cases q <;> decide

/-- The `findUnread` / `getUnreadCount` query document, as a proposition. -/
theorem unreadPred_iff (now : Nat) (recipientId : String) (n : Notification) :
    unreadPred now recipientId n = true ↔
      n.recipientId = recipientId ∧ n.read = false ∧
        (n.expiresAt = none ∨ ∃ e, n.expiresAt = some e ∧ now < e) := by
  unfold unreadPred
  cases h : n.expiresAt <;> simp [h, and_assoc]

/-- C1: `findUnread` does return exactly the unexpired unread notifications
of the recipient, but not in the claimed order: the Mongo sort compares the
stored priority strings, and on the store `[exHigh, exNormal]` it places the
normal-priority notification before the high-priority one ("normal" >
"high" lexicographically), violating the claimed urgent > high > normal >
low descending order. -/
theorem C1_counterexample :
    findUnread [exHigh, exNormal] "doctor1" 0 = [exNormal, exHigh] ∧
    claimedPriorityRank exNormal.priority < claimedPriorityRank exHigh.priority ∧
    ¬ (findUnread [exHigh, exNormal] "doctor1" 0).Sorted claimedUnreadBefore := by
  refine ⟨by decide, by decide, by decide⟩

/-- C1 (amended): `findUnread recipientId` returns exactly the notifications
of that recipient with `read = false` and (`expiresAt` null or strictly in
the future), ordered by the stored priority string descending — which is
urgent > normal > low > high, lexicographic order, not the semantic
severity order — and, within equal priority, by creation time descending. -/
theorem C1_findUnread_members_and_order :
    ∀ (store : List Notification) (recipientId : String) (now : Nat),
      (findUnread store recipientId now).Sorted unreadBefore ∧
      (findUnread store recipientId now).Perm
        (store.filter (unreadPred now recipientId)) ∧
      ∀ n : Notification,
        n ∈ findUnread store recipientId now ↔
          n ∈ store ∧ n.recipientId = recipientId ∧ n.read = false ∧
            (n.expiresAt = none ∨ ∃ e, n.expiresAt = some e ∧ now < e) := by
  intro store recipientId now
  refine ⟨List.sorted_insertionSort _ _, List.perm_insertionSort _ _, ?_⟩
  intro n
  rw [findUnread, List.mem_insertionSort, List.mem_filter, unreadPred_iff]

/-- C2: `markAsDelivered` with an unrecognized channel is not a no-op: the
`status` promotion sits outside the channel-key guard, so on a `pending`
notification (`exHigh`) the call with channel `"webhook"` still promotes
`status` to `sent` (and the save refreshes `updatedAt`). -/
theorem C2_counterexample :
    exHigh.status = Status.pending ∧
    (markAsDelivered exHigh "webhook" "msg-1" 7).status = Status.sent ∧
    markAsDelivered exHigh "webhook" "msg-1" 7 ≠ exHigh := by
  refine ⟨rfl, rfl, by decide⟩

/-- C2 (amended): for every channel string outside {push, email, sms, inApp},
`markAsDelivered` leaves every channel sub-record untouched, but still
promotes `status` from `pending` to `sent` (leaving any other status
unchanged) and refreshes `updatedAt`; all remaining fields are unchanged. -/
theorem C2_unknown_channel_effect :
    ∀ (n : Notification) (channel messageId : String) (now : Nat),
      channel ∉ ["push", "email", "sms", "inApp"] →
      markAsDelivered n channel messageId now =
        { n with
          status := if n.status = Status.pending then Status.sent else n.status,
          updatedAt := now } := by
  intro n channel messageId now h
  simp only [List.mem_cons, List.mem_singleton, not_or] at h
  obtain ⟨h1, h2, h3, _⟩ := h
  unfold markAsDelivered deliverChannels
  simp only [beq_eq_false_iff_ne.mpr h1, beq_eq_false_iff_ne.mpr h2,
    beq_eq_false_iff_ne.mpr h3, Bool.false_eq_true, if_false]
  split <;> rfl

/-- C2 witness: the amended effect at the counterexample's input. -/
theorem C2_witness :
    markAsDelivered exHigh "webhook" "msg-1" 7 =
      { exHigh with
        status := if exHigh.status = Status.pending then Status.sent else exHigh.status,
        updatedAt := 7 } :=
  C2_unknown_channel_effect exHigh "webhook" "msg-1" 7 (by decide)

/-- C3: the `read`/`readAt` invariant is violable at creation: `create`
accepts the schema field `read`, so creating with `read: true` (as the
repository's own unread-count test does) yields a reachable notification
with `read = true` and `readAt = null`. -/
theorem C3_counterexample :
    Reachable (createNotif exCreateReadTrue 0) ∧
    (createNotif exCreateReadTrue 0).read = true ∧
    (createNotif exCreateReadTrue 0).readAt = none :=
  ⟨Reachable.create exCreateReadTrue 0, rfl, rfl⟩

/-- `markAsDelivered` never touches `read`. -/
theorem markAsDelivered_read (n : Notification) (c m : String) (t : Nat) :
    (markAsDelivered n c m t).read = n.read := by
  unfold markAsDelivered
  dsimp only
  split <;> rfl

/-- `markAsDelivered` never touches `readAt`. -/
theorem markAsDelivered_readAt (n : Notification) (c m : String) (t : Nat) :
    (markAsDelivered n c m t).readAt = n.readAt := by
  unfold markAsDelivered
  dsimp only
  split <;> rfl

/-- C3 (amended): for every notification reachable through the public
operations where creation leaves `read` and `readAt` at their schema
defaults (`false` / `null`), `readAt` is non-null if and only if `read` is
true; supplying `read`/`readAt` at creation can break the invariant. -/
theorem C3_readAt_iff_read :
    ∀ n : Notification, ReachableDefault n → (n.readAt ≠ none ↔ n.read = true) := by
  intro n h
  induction h with
  | create f t hr ha => simp [createNotif, hr, ha]
  | viaMarkAsRead m t _ _ => simp [markAsRead]
  | viaMarkAsDelivered m c mid t _ ih =>
      rw [markAsDelivered_read, markAsDelivered_readAt]
      exact ih
  | viaCompleteAction m t _ ih => simpa [completeAction] using ih
  | viaMarkAllAsRead m t _ _ _ => simp [markAllAsReadDoc]

/-- C3 witness: the invariant at a concrete default-created notification. -/
theorem C3_witness :
    ((createNotif exCreateDefault 3).readAt ≠ none ↔
      (createNotif exCreateDefault 3).read = true) :=
  C3_readAt_iff_read (createNotif exCreateDefault 3)
    (ReachableDefault.create exCreateDefault 3 rfl rfl)

/-- After `markAllAsRead recipientId`, every stored notification of that
recipient has `read = true`. -/
theorem markAllAsRead_no_unread_left (store : List Notification) (recipientId : String)
    (now : Nat) :
    ∀ a ∈ (markAllAsRead store recipientId now).1,
      a.recipientId = recipientId → a.read = true := by
  intro a ha hr
  rw [markAllAsRead] at ha
  obtain ⟨b, hb, rfl⟩ := List.mem_map.mp ha
  by_cases hc : (b.recipientId == recipientId && b.read == false) = true
  · rw [if_pos hc]
    rfl
  · rw [if_neg hc] at hr ⊢
    simp only [Bool.and_eq_true, beq_iff_eq, not_and] at hc
    simpa using hc hr

/-- C4: `markAllAsRead` sets `read = true`, `readAt = now`, `status = read`
(and refreshes `updatedAt`) on every currently-unread notification of the
recipient, leaves every other notification in place, reports as
`modifiedCount` the number of matched (hence changed) documents, and
immediately afterwards the recipient's unread count is 0 and a second call
reports `modifiedCount = 0`. -/
theorem C4_markAllAsRead_spec :
    ∀ (store : List Notification) (recipientId : String) (now now2 now3 : Nat),
      (markAllAsRead store recipientId now).2 =
        (store.filter fun n => n.recipientId == recipientId && n.read == false).length ∧
      (∀ n ∈ store, n.recipientId = recipientId → n.read = false →
        { n with
            read := true
            readAt := some now
            status := Status.read
            updatedAt := now } ∈ (markAllAsRead store recipientId now).1) ∧
      (∀ n ∈ store, ¬(n.recipientId = recipientId ∧ n.read = false) →
        n ∈ (markAllAsRead store recipientId now).1) ∧
      getUnreadCount (markAllAsRead store recipientId now).1 recipientId now2 = 0 ∧
      (markAllAsRead (markAllAsRead store recipientId now).1 recipientId now3).2 = 0 := by
  intro store recipientId now now2 now3
  refine ⟨rfl, ?_, ?_, ?_, ?_⟩
  · intro n hn hr hread
    rw [markAllAsRead]
    refine List.mem_map.mpr ⟨n, hn, ?_⟩
    have hc : (n.recipientId == recipientId && n.read == false) = true := by
      simp [hr, hread]
    show (if n.recipientId == recipientId && n.read == false
        then markAllAsReadDoc n now else n) = _
    rw [if_pos hc]
    rfl
  · intro n hn hnot
    rw [markAllAsRead]
    refine List.mem_map.mpr ⟨n, hn, ?_⟩
    have hc : (n.recipientId == recipientId && n.read == false) = false := by
      by_cases h1 : n.recipientId = recipientId
      · cases h2 : n.read
        · exact absurd ⟨h1, h2⟩ hnot
        · simp [h2]
      · simp [h1]
    show (if n.recipientId == recipientId && n.read == false
        then markAllAsReadDoc n now else n) = _
    rw [if_neg (by rw [hc]; exact Bool.false_ne_true)]
  · rw [getUnreadCount, List.length_eq_zero, List.filter_eq_nil_iff]
    intro a ha
    by_cases hr : a.recipientId = recipientId
    · have := markAllAsRead_no_unread_left store recipientId now a ha hr
      simp [this]
    · simp [hr]
  · rw [markAllAsRead, List.length_eq_zero, List.filter_eq_nil_iff]
    intro a ha
    by_cases hr : a.recipientId = recipientId
    · have := markAllAsRead_no_unread_left store recipientId now a ha hr
      simp [this]
    · simp [hr]

/-- C4 witness-style instance: the bulk mark on a concrete two-notification
store of `doctor1`. -/
theorem C4_instance :
    { exHigh with
        read := true
        readAt := some 20
        status := Status.read
        updatedAt := 20 } ∈ (markAllAsRead [exHigh, exNormal] "doctor1" 20).1 ∧
    getUnreadCount (markAllAsRead [exHigh, exNormal] "doctor1" 20).1 "doctor1" 21 = 0 ∧
    (markAllAsRead (markAllAsRead [exHigh, exNormal] "doctor1" 20).1 "doctor1" 22).2 = 0 := by
  obtain ⟨-, h2, -, h4, h5⟩ := C4_markAllAsRead_spec [exHigh, exNormal] "doctor1" 20 21 22
  exact ⟨h2 exHigh (by decide) rfl rfl, h4, h5⟩

/-- (filter keep) and (filter drop) split a list's length. -/
theorem length_filter_not_add_length_filter (p : Notification → Bool)
    (l : List Notification) :
    (l.filter fun a => !(p a)).length + (l.filter p).length = l.length := by
  induction l with
  | nil => rfl
  | cons a l ih =>
      by_cases h : p a = true <;> simp [List.filter_cons, h] <;> omega

/-- C5: `deleteOld` removes exactly the read notifications created before
the cutoff: a notification survives iff it is not (older than the cutoff and
read); every unread notification survives regardless of age; and
`deletedCount` accounts exactly for the removed documents. -/
theorem C5_deleteOld_spec :
    ∀ (store : List Notification) (cutoff : Nat),
      (∀ n : Notification,
        n ∈ (deleteOld store cutoff).1 ↔
          n ∈ store ∧ ¬(n.createdAt < cutoff ∧ n.read = true)) ∧
      (∀ n ∈ store, n.read = false → n ∈ (deleteOld store cutoff).1) ∧
      (deleteOld store cutoff).1.length + (deleteOld store cutoff).2 = store.length := by
  intro store cutoff
  refine ⟨?_, ?_, ?_⟩
  · intro n
    rw [deleteOld, List.mem_filter]
    simp only [not_and, Bool.not_eq_true', Bool.and_eq_false_iff, decide_eq_false_iff_not,
      Nat.not_lt]
    apply and_congr_right
    intro _
    constructor
    · rintro (h | h) hc
      · omega
      · simp [h]
    · intro h
      by_cases hc : n.createdAt < cutoff
      · exact Or.inr (by simpa using h hc)
      · exact Or.inl (by omega)
  · intro n hn hread
    rw [deleteOld, List.mem_filter]
    exact ⟨hn, by simp [hread]⟩
  · exact length_filter_not_add_length_filter
      (fun n => decide (n.createdAt < cutoff) && n.read) store

/-- C5 instance: the spec's own scenario — of {old read, old unread, new
read} only the old read notification is removed. -/
theorem C5_instance :
    exOldUnread ∈ (deleteOld [exOldRead, exOldUnread, exNewRead] 50).1 ∧
    exNewRead ∈ (deleteOld [exOldRead, exOldUnread, exNewRead] 50).1 ∧
    exOldRead ∉ (deleteOld [exOldRead, exOldUnread, exNewRead] 50).1 := by
  obtain ⟨h1, h2, -⟩ := C5_deleteOld_spec [exOldRead, exOldUnread, exNewRead] 50
  refine ⟨h2 exOldUnread (by decide) rfl, (h1 exNewRead).mpr ⟨by decide, by decide⟩, ?_⟩
  intro hmem
  exact ((h1 exOldRead).mp hmem).2 ⟨by decide, rfl⟩

/-- C6: `getUnreadCount` equals the length of `findUnread`'s result: the two
statics run the same query document (duplicated verbatim in the source), and
the sort does not change the number of documents. -/
theorem C6_count_eq_findUnread_length :
    ∀ (store : List Notification) (recipientId : String) (now : Nat),
      getUnreadCount store recipientId now =
        (findUnread store recipientId now).length := by
  intro store recipientId now
  rw [findUnread, List.length_insertionSort]
  rfl

/-- C7: dispatching with an `entityType` outside
{task, alarm, visit, medicine, audio, photo} throws `Unknown entity type`
before either collaborator is invoked, so neither SNS nor SQS receives
anything; `audio` and `photo` are routed to the `TASK` topic. -/
theorem C7_routing_spec :
    (∀ (d : NotificationData) (id : String) (now : Nat),
      d.entityType ∉ ["task", "alarm", "visit", "medicine", "audio", "photo"] →
        (createNotification d id now).1 =
            Except.error ("Unknown entity type: " ++ d.entityType) ∧
          (createNotification d id now).2.snsPublishes = [] ∧
          (createNotification d id now).2.sqsSends = []) ∧
    routeTopic "audio" = some TopicType.TASK ∧
    routeTopic "photo" = some TopicType.TASK ∧
    (∀ (d : NotificationData) (id : String) (now : Nat),
      d.entityType = "audio" ∨ d.entityType = "photo" →
        (createNotification d id now).2.snsPublishes =
            [(TopicType.TASK, buildPayload d id now)] ∧
          (createNotification d id now).2.sqsSends = [buildPayload d id now]) := by
  refine ⟨?_, rfl, rfl, ?_⟩
  · intro d id now h
    simp only [List.mem_cons, List.not_mem_nil, or_false, not_or] at h
    obtain ⟨h1, h2, h3, h4, h5, h6⟩ := h
    have hr : routeTopic d.entityType = none := by
      unfold routeTopic
      simp [h1, h2, h3, h4, h5, h6]
    simp [createNotification, hr]
  · intro d id now h
    have hr : routeTopic d.entityType = some TopicType.TASK := by
      rcases h with h | h <;> rw [h] <;> rfl
    simp [createNotification, hr]

/-- C7 instance: the unknown-entity-type path at a concrete request. -/
theorem C7_instance :
    (createNotification exDispatchDoc "id-1" 0).1 =
        Except.error ("Unknown entity type: " ++ exDispatchDoc.entityType) ∧
      (createNotification exDispatchDoc "id-1" 0).2.snsPublishes = [] ∧
      (createNotification exDispatchDoc "id-1" 0).2.sqsSends = [] :=
  C7_routing_spec.1 exDispatchDoc "id-1" 0 (by decide)

/-- C8: `byType`/`byPriority` are not per-value breakdowns: with two
`doctor1` notifications of type `file_upload`, the aggregation `$push`es one
`{type, count: 1}` entry per document, so `byType` holds two entries of
count 1 for the single distinct value whose per-value count is 2. -/
theorem C8_counterexample :
    getStats [exPhotoA, exPhotoB] "doctor1" =
      some
        { total := 2
          unread := 2
          byType := [{ type := "file_upload", count := 1 },
            { type := "file_upload", count := 1 }]
          byPriority := [{ priority := Priority.high, count := 1 },
            { priority := Priority.normal, count := 1 }] } ∧
    ([exPhotoA, exPhotoB].filter fun n =>
        n.recipientId == "doctor1" && n.type == "file_upload").length = 2 := by
  refine ⟨by decide, by decide⟩

/-- Per-value totals are recoverable from the pushed `byType` entries: the
counts of the entries carrying a given type sum to the number of documents
with that type. -/
theorem sum_typeEntry_counts (l : List Notification) (v : String) :
    (((l.map fun n => ({ type := n.type, count := 1 } : TypeEntry)).filter
        fun e => e.type == v).map TypeEntry.count).sum =
      (l.filter fun n => n.type == v).length := by
  induction l with
  | nil => rfl
  | cons a l ih =>
      by_cases h : (a.type == v) = true <;>
        simp [List.filter_cons, h, ih] <;> omega

/-- The `byPriority` analogue of `sum_typeEntry_counts`. -/
theorem sum_priorityEntry_counts (l : List Notification) (p : Priority) :
    (((l.map fun n => ({ priority := n.priority, count := 1 } : PriorityEntry)).filter
        fun e => e.priority == p).map PriorityEntry.count).sum =
      (l.filter fun n => n.priority == p).length := by
  induction l with
  | nil => rfl
  | cons a l ih =>
      by_cases h : (a.priority == p) = true <;>
        simp [List.filter_cons, h, ih] <;> omega

/-- C8 (amended): `getStats` yields no row when the recipient has no
notifications (the endpoint then substitutes `{total: 0, unread: 0}` with no
breakdowns); otherwise `total` and `unread` are the claimed counts, while
`byType` / `byPriority` hold one `{value, count: 1}` entry per notification
— per-value totals arise only by summing the entries of a value. -/
theorem C8_getStats_spec :
    ∀ (store : List Notification) (recipientId : String),
      (getStats store recipientId = none ↔
        (store.filter fun n => n.recipientId == recipientId) = []) ∧
      (∀ row : StatsRow, getStats store recipientId = some row →
        row.total = (store.filter fun n => n.recipientId == recipientId).length ∧
        row.unread = ((store.filter fun n => n.recipientId == recipientId).filter
            fun n => n.read == false).length ∧
        row.byType = (store.filter fun n => n.recipientId == recipientId).map
            (fun n => { type := n.type, count := 1 }) ∧
        (∀ v : String,
          ((row.byType.filter fun e => e.type == v).map TypeEntry.count).sum =
            ((store.filter fun n => n.recipientId == recipientId).filter
              fun n => n.type == v).length) ∧
        (∀ p : Priority,
          ((row.byPriority.filter fun e => e.priority == p).map PriorityEntry.count).sum =
            ((store.filter fun n => n.recipientId == recipientId).filter
              fun n => n.priority == p).length)) := by
  intro store recipientId
  constructor
  · rw [getStats]
    by_cases h : (store.filter fun n => n.recipientId == recipientId).isEmpty
    · rw [if_pos h]
      simp [List.isEmpty_iff.mp h]
    · rw [if_neg h]
      constructor
      · intro hc
        exact absurd hc (by simp)
      · intro hc
        exact absurd (List.isEmpty_iff.mpr hc) h
  · intro row hrow
    rw [getStats] at hrow
    by_cases h : (store.filter fun n => n.recipientId == recipientId).isEmpty
    · rw [if_pos h] at hrow
      exact absurd hrow (by simp)
    · rw [if_neg h] at hrow
      obtain rfl : _ = row := by injection hrow
      refine ⟨rfl, rfl, rfl, ?_, ?_⟩
      · intro v
        exact sum_typeEntry_counts _ v
      · intro p
        exact sum_priorityEntry_counts _ p

/-- C8 instance: the amended totals at the counterexample's store. -/
theorem C8_instance :
    exStatsRow.total =
      ([exPhotoA, exPhotoB].filter fun n => n.recipientId == "doctor1").length ∧
    ((exStatsRow.byType.filter fun e => e.type == "file_upload").map
        TypeEntry.count).sum =
      (([exPhotoA, exPhotoB].filter fun n => n.recipientId == "doctor1").filter
        fun n => n.type == "file_upload").length := by
  obtain ⟨h1, -, -, h4, -⟩ :=
    (C8_getStats_spec [exPhotoA, exPhotoB] "doctor1").2 exStatsRow (by decide)
  exact ⟨h1, h4 "file_upload"⟩

/-- The query document of `findByRecipient`, as a proposition: the
recipient clause plus one clause per supplied option (AND semantics). -/
theorem matchesOptions_iff (recipientId : String) (opts : FindOptions) (n : Notification) :
    matchesOptions recipientId opts n = true ↔
      n.recipientId = recipientId ∧
        (∀ t, opts.type = some t → n.type = t) ∧
        (∀ b, opts.read = some b → n.read = b) ∧
        (∀ p, opts.priority = some p → n.priority = p) := by
  rcases opts with ⟨ot, ord, op, ol⟩
  unfold matchesOptions
  cases ot <;> cases ord <;> cases op <;> simp [and_assoc]

/-- C9: `limit` is not honoured at 0: `options.limit || 50` treats a
supplied 0 as absent, so a one-notification store yields one result where
the claim requires at most zero. -/
theorem C9_counterexample :
    (findByRecipient [exNormal] "doctor1" { limit := some 0 }).length = 1 ∧
    ¬ (findByRecipient [exNormal] "doctor1" { limit := some 0 }).length ≤ 0 := by
  refine ⟨by decide, by decide⟩

/-- C9 (amended): `findByRecipient` returns only notifications of the
recipient matching every supplied filter (AND semantics), ordered by
creation time descending, truncated to at most `limit` results for nonzero
`limit` — an omitted or zero `limit` falls back to 50 — and drops no
matching notification when the matches fit within that limit. -/
theorem C9_findByRecipient_spec :
    ∀ (store : List Notification) (recipientId : String) (opts : FindOptions),
      (∀ n ∈ findByRecipient store recipientId opts,
        n ∈ store ∧ n.recipientId = recipientId ∧
          (∀ t, opts.type = some t → n.type = t) ∧
          (∀ b, opts.read = some b → n.read = b) ∧
          (∀ p, opts.priority = some p → n.priority = p)) ∧
      (findByRecipient store recipientId opts).Sorted createdBefore ∧
      (findByRecipient store recipientId opts).length ≤ effectiveLimit opts ∧
      (opts.limit = none → effectiveLimit opts = 50) ∧
      ((store.filter (matchesOptions recipientId opts)).length ≤ effectiveLimit opts →
        ∀ n : Notification,
          n ∈ findByRecipient store recipientId opts ↔
            n ∈ store ∧ matchesOptions recipientId opts n = true) := by
  intro store recipientId opts
  refine ⟨?_, ?_, ?_, ?_, ?_⟩
  · intro n hn
    rw [findByRecipient] at hn
    have hn2 := List.mem_of_mem_take hn
    rw [List.mem_insertionSort, List.mem_filter] at hn2
    obtain ⟨hs, hm⟩ := hn2
    obtain ⟨h1, h2⟩ := (matchesOptions_iff _ _ _).mp hm
    exact ⟨hs, h1, h2⟩
  · exact List.Pairwise.sublist (List.take_sublist _ _)
      (List.sorted_insertionSort createdBefore _)
  · rw [findByRecipient]
    exact List.length_take_le _ _
  · intro h
    rw [effectiveLimit, h]
  · intro hle n
    rw [findByRecipient,
      List.take_of_length_le (by rw [List.length_insertionSort]; exact hle),
      List.mem_insertionSort, List.mem_filter]

/-- C9 instance: a filtered query on the two-notification `doctor1` store. -/
theorem C9_instance :
    (findByRecipient [exHigh, exNormal] "doctor1"
        { type := some "file_upload" }).Sorted createdBefore ∧
    (exHigh ∈ findByRecipient [exHigh, exNormal] "doctor1"
        { type := some "file_upload" }) := by
  obtain ⟨-, h2, -, -, h5⟩ :=
    C9_findByRecipient_spec [exHigh, exNormal] "doctor1" { type := some "file_upload" }
  exact ⟨h2, (h5 (by decide) exHigh).mpr ⟨by decide, by decide⟩⟩

/-- C10: an expired notification that matches the filters is nevertheless
dropped when it falls outside the `limit` (default 50) most recent matches:
in a 51-document store the expired, oldest notification is cut off by the
truncation, so the claim's "still returns it" fails as stated. -/
theorem C10_counterexample :
    exExpired ∈ exBigStore ∧
    matchesOptions "nurse1" {} exExpired = true ∧
    exExpired.expiresAt = some 5 ∧
    exExpired ∉ findByRecipient exBigStore "nurse1" {} := by
  refine ⟨by decide, by decide, rfl, by decide⟩

/-- C10 (amended): an expired notification matching the filters is returned
by `findByRecipient` whenever the matches fit within the `limit` (default
50), even though `findUnread` omits it and `getUnreadCount`'s predicate
rejects it. -/
theorem C10_expired_in_list_not_in_unread :
    ∀ (store : List Notification) (recipientId : String) (opts : FindOptions)
      (now : Nat) (n : Notification) (e : Nat),
      n ∈ store →
      matchesOptions recipientId opts n = true →
      n.expiresAt = some e →
      e < now →
      (store.filter (matchesOptions recipientId opts)).length ≤ effectiveLimit opts →
      n ∈ findByRecipient store recipientId opts ∧
        n ∉ findUnread store recipientId now ∧
        unreadPred now recipientId n = false := by
  intro store recipientId opts now n e hmem hmatch hexp hlt hlen
  have hdec : decide (now < e) = false := decide_eq_false_iff_not.mpr (by omega)
  have hpred : unreadPred now recipientId n = false := by
    unfold unreadPred
    rw [hexp]
    simp [hdec]
  refine ⟨?_, ?_, hpred⟩
  · rw [findByRecipient,
      List.take_of_length_le (by rw [List.length_insertionSort]; exact hlen),
      List.mem_insertionSort, List.mem_filter]
    exact ⟨hmem, hmatch⟩
  · intro hin
    rw [findUnread, List.mem_insertionSort, List.mem_filter] at hin
    have := hin.2
    rw [hpred] at this
    exact Bool.false_ne_true this

/-- C10 witness: the amended statement at a one-notification store. -/
theorem C10_witness :
    exExpired ∈ findByRecipient [exExpired] "nurse1" {} ∧
      exExpired ∉ findUnread [exExpired] "nurse1" 10 ∧
      unreadPred 10 "nurse1" exExpired = false :=
  C10_expired_in_list_not_in_unread [exExpired] "nurse1" {} 10 exExpired 5
    (by decide) (by decide) rfl (by decide) (by decide)

end NotificationService
